import Mathlib

/-!
# ODrive motor controller over CAN: shallow embedding of `src/motor/motorController.cpp`

The class `MotorController` talks to an external `CANLibrary` (`can_library.h`, not part of
the repository).  The transport is therefore a parameter of the embedding (`Env`): its three
entry points `open`, `send` and `receive` are arbitrary functions on an arbitrary transport
state, and `send`, whose result the controller discards, may throw.  Every call that reaches the transport, and every `sleep_for`, is appended to a
trace so that statements about "which frames are sent, in which order" can be made for
every transport.

A `float` is represented by its 32-bit IEEE-754 pattern (a `Nat` below `2 ^ 32`);
`std::memcpy` between a `float` and `msg.data` is the byte split / byte join of that
pattern in the byte order of the host.
-/

namespace MotorCtl

/-! ## CAN frames and floats -/

/-- A `CANMessage` as the controller uses it: the identifier, the payload bytes
(indexed from 0; the controller touches indices 0 to 3 only) and the payload length. -/
structure CANMessage where
  id : Int
  data : Nat → Nat
  dlc : Nat

/-- Byte order of the host, which decides what `std::memcpy` of a `float` produces. -/
inductive ByteOrder where
  | little
  | big
  deriving DecidableEq, Repr

/-- The `i`-th byte (in memory order) of the `float` object whose bit pattern is `value`. -/
def float_byte (order : ByteOrder) (value : Nat) (i : Nat) : Nat :=
  match order with
  | .little => value / 256 ^ i % 256
  | .big => value / 256 ^ (3 - i) % 256

/-- The effect of `std::memcpy(msg.data, &value, sizeof(float))` on `msg.data`:
bytes 0 to 3 are overwritten, the others keep their content. -/
def memcpy_to_data (order : ByteOrder) (data : Nat → Nat) (value : Nat) : Nat → Nat :=
  fun i => if i < 4 then float_byte order value i else data i

/-- The effect of `std::memcpy(&value, msg.data, sizeof(float))`: the bit pattern of
`value` afterwards. -/
def memcpy_from_data (order : ByteOrder) (data : Nat → Nat) : Nat :=
  match order with
  | .little => data 0 + 256 * data 1 + 256 ^ 2 * data 2 + 256 ^ 3 * data 3
  | .big => data 3 + 256 * data 2 + 256 ^ 2 * data 1 + 256 ^ 3 * data 0

/-- IEEE-754 binary32: the pattern is a NaN (exponent all ones, non-zero fraction). -/
def float_isNaN (w : Nat) : Bool :=
  w / 2 ^ 23 % 256 == 255 && w % 2 ^ 23 != 0

/-- IEEE-754 binary32: the pattern is `+0.0` or `-0.0`. -/
def float_isZero (w : Nat) : Bool :=
  w % 2 ^ 31 == 0

/-- The C++ comparison `a != b` on two `float`s given by their bit patterns. -/
def float_ne (a b : Nat) : Bool :=
  float_isNaN a || float_isNaN b || !(a == b || (float_isZero a && float_isZero b))

/-- The rational value of a finite binary32 pattern (`none` for infinities and NaNs). -/
def float_toRat (w : Nat) : Option ℚ :=
  let s : Nat := w / 2 ^ 31 % 2
  let e : Nat := w / 2 ^ 23 % 256
  let m : Nat := w % 2 ^ 23
  if e = 255 then none
  else if e = 0 then some ((-1 : ℚ) ^ s * (m : ℚ) * 2 / 2 ^ 150)
  else some ((-1 : ℚ) ^ s * ((2 ^ 23 + m : Nat) : ℚ) * 2 ^ e / 2 ^ 150)

/-! ## The environment: transport, clock, console -/

/-- One observable interaction of the controller with the transport or the clock;
`sent msg` records that `msg` was handed to `can.send`, whether or not the call threw. -/
inductive Event where
  | opened (can_interface : String) (ok : Bool)
  | sent (msg : CANMessage)
  | received (id : Int) (ok : Bool) (msg : CANMessage)
  | slept (ms : Nat)

/-- The external collaborators of the controller, over a transport state `σ`.
`can_open`, `can_send` and `can_receive` stand for `CANLibrary::open`, `::send` and
`::receive`.  `open` and `receive` report a failure through the flag they return.  The
value `send` may return is discarded by the controller, so a failed `send` shows only as
an exception: `can_send` answers `some what` when `send` throws a `std::exception` whose
`what()` is `what`, and `none` when it returns.  `sleep_for` is the effect on the bus of
letting time pass; `fresh` is the content of a local `CANMessage msg;` before the
controller writes to it; `order` is the host byte order. -/
structure Env (σ : Type) where
  can_open : σ → String → Bool × σ
  can_send : σ → CANMessage → Option String × σ
  can_receive : σ → Int → CANMessage → Bool × CANMessage × σ
  sleep_for : σ → Nat → σ
  fresh : σ → CANMessage
  order : ByteOrder

/-- The world a method runs in: transport state, trace of interactions, console output. -/
structure World (σ : Type) where
  can : σ
  trace : List Event
  cout : List String
  cerr : List String

/-- How a call ends: it returns, an exception escapes it, the process exits, or the
model ran out of fuel while the call was still looping. -/
inductive Outcome (α : Type) where
  | returned (a : α)
  | threw (what : String)
  | exited (status : Int)
  | unfinished

/-- A C++ statement sequence as a function on worlds. -/
def Program (σ α : Type) : Type := World σ → Outcome α × World σ

/-- Sequencing: only a normal return continues with the next statement. -/
def Program.bind {σ α β : Type} (p : Program σ α) (f : α → Program σ β) : Program σ β :=
  fun w =>
    match p w with
    | (.returned a, w1) => f a w1
    | (.threw what, w1) => (.threw what, w1)
    | (.exited status, w1) => (.exited status, w1)
    | (.unfinished, w1) => (.unfinished, w1)

instance {σ : Type} : Monad (Program σ) where
  pure a := fun w => (.returned a, w)
  bind := Program.bind

/-- The statement `throw std::runtime_error(what)`. -/
def throw_runtime_error {σ α : Type} (what : String) : Program σ α :=
  fun w => (.threw what, w)

/-- The call `exit(status)`. -/
def exit {σ α : Type} (status : Int) : Program σ α :=
  fun w => (.exited status, w)

/-- The block `try body catch (const std::exception& e) handler(e.what())`. -/
def try_catch {σ α : Type} (body : Program σ α) (handler : String → Program σ α) :
    Program σ α :=
  fun w =>
    match body w with
    | (.threw what, w1) => handler what w1
    | r => r

/-- Writing one line to `std::cout`. -/
def cout {σ : Type} (line : String) : Program σ Unit :=
  fun w => (.returned (), { w with cout := w.cout ++ [line] })

/-- Writing one line to `std::cerr`. -/
def cerr {σ : Type} (line : String) : Program σ Unit :=
  fun w => (.returned (), { w with cerr := w.cerr ++ [line] })

/-- The call `can.open(can_interface)`. -/
def can_open {σ : Type} (E : Env σ) (can_interface : String) : Program σ Bool :=
  fun w =>
    let r := E.can_open w.can can_interface
    (.returned r.1, { w with can := r.2, trace := w.trace ++ [.opened can_interface r.1] })

/-- How a call of `can.send` ends: it returns, or the exception it threw escapes. -/
def send_outcome (thrown : Option String) : Outcome Unit :=
  match thrown with
  | none => .returned ()
  | some what => .threw what

/-- The call `can.send(msg)`. -/
def can_send {σ : Type} (E : Env σ) (msg : CANMessage) : Program σ Unit :=
  fun w =>
    (send_outcome (E.can_send w.can msg).1,
      { w with can := (E.can_send w.can msg).2, trace := w.trace ++ [.sent msg] })

/-- The call `can.receive(id, msg)`: the flag it returns and `msg` afterwards. -/
def can_receive {σ : Type} (E : Env σ) (id : Int) (msg : CANMessage) :
    Program σ (Bool × CANMessage) :=
  fun w =>
    let r := E.can_receive w.can id msg
    (.returned (r.1, r.2.1),
      { w with can := r.2.2, trace := w.trace ++ [.received id r.1 r.2.1] })

/-- The call `std::this_thread::sleep_for(std::chrono::milliseconds(ms))`. -/
def sleep_for {σ : Type} (E : Env σ) (ms : Nat) : Program σ Unit :=
  fun w => (.returned (), { w with can := E.sleep_for w.can ms, trace := w.trace ++ [.slept ms] })

/-- The declaration `CANMessage msg;`. -/
def declare_msg {σ : Type} (E : Env σ) : Program σ CANMessage :=
  fun w => (.returned (E.fresh w.can), w)

/-! ## The class `MotorController` -/

def EXIT_FAILURE : Int := 1

def AXIS_STATE_MOTOR_CALIBRATION : Int := 0x01
def AXIS_STATE_ENCODER_OFFSET_CALIBRATION : Int := 0x03
def AXIS_STATE_CLOSED_LOOP_CONTROL : Int := 0x08
def AXIS_STATE_IDLE : Int := 0x00

def CONTROL_MODE_TORQUE_CONTROL : Int := 0x0A

def INPUT_TORQUE_CAN_ID : Int := 0x0C
def TORQUE_CONSTANT_CAN_ID : Int := 0x0D
def IQ_MEASURED_CAN_ID : Int := 0x0E
def TORQUE_ESTIMATE_CAN_ID : Int := 0x0F
def VEL_ESTIMATE_CAN_ID : Int := 0x10
def POS_ESTIMATE_CAN_ID : Int := 0x11

/-- The `int` constant `AXIS_STATE_IDLE` (0) converted to `float` for the comparison in
`wait_for_idle_state`: the pattern of `+0.0f`. -/
def AXIS_STATE_IDLE_as_float : Nat := 0x00000000

/-- The data members of the class other than the transport handle. -/
structure MotorController where
  can_id : Int
  can_interface : String

/-- The constructor `MotorController(int can_id)`. -/
def MotorController.make (can_id : Int) : MotorController :=
  { can_id := can_id, can_interface := "can0" }

/-- The offset `is_control_mode ? 0x100 : 0x200` of `send_can_command`. -/
def command_offset (is_control_mode : Bool) : Int :=
  if is_control_mode then 0x100 else 0x200

/-- The one-byte store `msg.data[0] = command`: the `int` is narrowed to a byte. -/
def store_byte (data : Nat → Nat) (i : Nat) (value : Int) : Nat → Nat :=
  Function.update data i (value % 256).toNat

namespace MotorController

def initialize_can {σ : Type} (E : Env σ) (self : MotorController) : Program σ Unit :=
  try_catch
    (do
      cout "正在初始化 CAN 通信..."
      let ok ← can_open E self.can_interface
      if !ok then
        throw_runtime_error "无法打开 CAN 接口，请检查连接。"
      cout "CAN 通信已初始化。")
    (fun what => do
      cerr ("初始化 CAN 失败: " ++ what)
      exit EXIT_FAILURE)

def send_can_command {σ : Type} (E : Env σ) (self : MotorController) (command : Int)
    (is_control_mode : Bool) : Program σ Unit := do
  let msg ← declare_msg E
  let msg := { msg with id := Int.lor self.can_id (command_offset is_control_mode) }
  let msg := { msg with data := store_byte msg.data 0 command }
  let msg := { msg with dlc := 1 }
  can_send E msg

def send_can_data {σ : Type} (E : Env σ) (self : MotorController) (can_id : Int)
    (value : Nat) : Program σ Unit := do
  let msg ← declare_msg E
  let msg := { msg with id := Int.lor self.can_id can_id }
  let msg := { msg with data := memcpy_to_data E.order msg.data value }
  let msg := { msg with dlc := 4 }
  can_send E msg

def read_can_data {σ : Type} (E : Env σ) (self : MotorController) (can_id : Int) :
    Program σ Nat := do
  let msg ← declare_msg E
  let r ← can_receive E (Int.lor self.can_id can_id) msg
  if r.1 then
    pure (memcpy_from_data E.order r.2.data)
  else
    throw_runtime_error "读取 CAN 数据失败"

/-- The loop of `wait_for_idle_state`; `fuel` bounds the number of iterations the model
follows, and `Outcome.unfinished` says the loop was still running when it ran out. -/
def wait_for_idle_state {σ : Type} (E : Env σ) (self : MotorController) :
    Nat → Program σ Unit
  | 0 => fun w => (.unfinished, w)
  | fuel + 1 => do
    let value ← read_can_data E self AXIS_STATE_IDLE
    if float_ne value AXIS_STATE_IDLE_as_float then
      sleep_for E 100
      wait_for_idle_state E self fuel
    else
      pure ()

def calibrate_motor {σ : Type} (E : Env σ) (self : MotorController) (fuel : Nat) :
    Program σ Unit :=
  try_catch
    (do
      cout "开始校准..."
      send_can_command E self AXIS_STATE_MOTOR_CALIBRATION false
      wait_for_idle_state E self fuel
      send_can_command E self AXIS_STATE_ENCODER_OFFSET_CALIBRATION false
      wait_for_idle_state E self fuel
      cout "校准完成。")
    (fun what => do
      cerr ("校准失败: " ++ what)
      exit EXIT_FAILURE)

def set_torque_control_mode {σ : Type} (E : Env σ) (self : MotorController) :
    Program σ Unit :=
  try_catch
    (do
      send_can_command E self CONTROL_MODE_TORQUE_CONTROL true
      send_can_command E self AXIS_STATE_CLOSED_LOOP_CONTROL false
      cout "已设置为力矩控制模式。")
    (fun what => cerr ("设置力矩控制模式失败: " ++ what))

def stop_motor {σ : Type} (E : Env σ) (self : MotorController) : Program σ Unit :=
  try_catch
    (do
      send_can_command E self AXIS_STATE_IDLE false
      cout "电机已停止。")
    (fun what => cerr ("停止电机失败: " ++ what))

def set_input_torque {σ : Type} (E : Env σ) (self : MotorController) (torque_value : Nat) :
    Program σ Unit :=
  try_catch
    (send_can_data E self INPUT_TORQUE_CAN_ID torque_value)
    (fun what => cerr ("设置输入力矩失败: " ++ what))

def get_torque_constant {σ : Type} (E : Env σ) (self : MotorController) : Program σ Nat :=
  read_can_data E self TORQUE_CONSTANT_CAN_ID

def get_Iq_measured {σ : Type} (E : Env σ) (self : MotorController) : Program σ Nat :=
  read_can_data E self IQ_MEASURED_CAN_ID

def get_torque_estimate {σ : Type} (E : Env σ) (self : MotorController) : Program σ Nat :=
  read_can_data E self TORQUE_ESTIMATE_CAN_ID

def get_vel_estimate {σ : Type} (E : Env σ) (self : MotorController) : Program σ Nat :=
  read_can_data E self VEL_ESTIMATE_CAN_ID

def get_pos_estimate {σ : Type} (E : Env σ) (self : MotorController) : Program σ Nat :=
  read_can_data E self POS_ESTIMATE_CAN_ID

end MotorController

/-! ## Observations on traces -/

/-- The frames handed to `can.send`, in order. -/
def sent_frames : List Event → List CANMessage
  | [] => []
  | .sent msg :: rest => msg :: sent_frames rest
  | _ :: rest => sent_frames rest

/-- The identifiers passed to `can.receive`, in order. -/
def received_ids : List Event → List Int
  | [] => []
  | .received id _ _ :: rest => id :: received_ids rest
  | _ :: rest => received_ids rest

/-- The durations of the sleeps, in order. -/
def sleeps : List Event → List Nat
  | [] => []
  | .slept ms :: rest => ms :: sleeps rest
  | _ :: rest => sleeps rest

/-- The frame `msg` read back as a `float` compares equal to `AXIS_STATE_IDLE`, that is,
the loop condition of `wait_for_idle_state` is false on it. -/
def reports_idle (order : ByteOrder) (msg : CANMessage) : Bool :=
  !float_ne (memcpy_from_data order msg.data) AXIS_STATE_IDLE_as_float

/-- The shape of the trace of one completed idle wait on identifier `id`: successful polls
that do not report IDLE, each followed by a sleep of 100 ms, then one successful poll that
reports IDLE. -/
def idle_wait_trace (order : ByteOrder) (id : Int) : List Event → Bool
  | [.received i true msg] => decide (i = id) && reports_idle order msg
  | .received i true msg :: .slept 100 :: rest =>
    decide (i = id) && !reports_idle order msg && idle_wait_trace order id rest
  | _ => false

/-- The trace of `busy.length` polls that found the frames `busy`, each followed by a
sleep of 100 ms. -/
def busy_polls (id : Int) : List CANMessage → List Event
  | [] => []
  | msg :: rest => .received id true msg :: .slept 100 :: busy_polls id rest

/-! ## Mock transports -/

/-- A frame with identifier `id` whose payload is the four bytes of the `float` `value`. -/
def data_frame_of (order : ByteOrder) (id : Int) (value : Nat) : CANMessage :=
  { id := id, data := memcpy_to_data order (fun _ => 0) value, dlc := 4 }

/-- The content of a zero-initialised `CANMessage`. -/
def zero_msg : CANMessage :=
  { id := 0, data := fun _ => 0, dlc := 0 }

/-- A world in which nothing has happened yet. -/
def World.init {σ : Type} (can : σ) : World σ :=
  { can := can, trace := [], cout := [], cerr := [] }

/-- A mock without state: `open` answers `openable`, every `send` returns, every
`receive` succeeds with a frame carrying the `float` `value`. -/
def constMock (order : ByteOrder) (openable : Bool) (value : Nat) : Env Unit where
  can_open _ _ := (openable, ())
  can_send _ _ := (none, ())
  can_receive _ id _ := (true, data_frame_of order id value, ())
  sleep_for _ _ := ()
  fresh _ := zero_msg
  order := order

/-- A mock that answers the successive `receive` calls with the frames of a script, and
with "no data" once the script is used up. -/
def scriptedMock (order : ByteOrder) : Env (List CANMessage) where
  can_open s _ := (true, s)
  can_send s _ := (none, s)
  can_receive s _ msg :=
    match s with
    | [] => (false, msg, [])
    | m :: rest => (true, m, rest)
  sleep_for s _ := s
  fresh _ := zero_msg
  order := order

/-- A mock holding at most one frame per identifier: `send` stores the frame under its
identifier, `receive` hands out the frame stored under the requested identifier. -/
def mailboxMock (order : ByteOrder) : Env (Int → Option CANMessage) where
  can_open s _ := (true, s)
  can_send s msg := (none, Function.update s msg.id (some msg))
  can_receive s id msg :=
    match s id with
    | some m => (true, m, s)
    | none => (false, msg, s)
  sleep_for s _ := s
  fresh _ := zero_msg
  order := order

/-- A mock whose state is the number of `send` calls that still succeed: once it is 0
every `send` throws; every `receive` succeeds with a frame carrying the `float` `value`. -/
def failingSendMock (order : ByteOrder) (value : Nat) : Env Nat where
  can_open s _ := (true, s)
  can_send s _ :=
    match s with
    | 0 => (some "send failed", 0)
    | n + 1 => (none, n)
  can_receive s id _ := (true, data_frame_of order id value, s)
  sleep_for s _ := s
  fresh _ := zero_msg
  order := order

/-- The offsets the controller combines with the device identifier: the idle poll, the six
parameters, and the two command offsets. -/
def offset_table : List Int :=
  [AXIS_STATE_IDLE, INPUT_TORQUE_CAN_ID, TORQUE_CONSTANT_CAN_ID, IQ_MEASURED_CAN_ID,
    TORQUE_ESTIMATE_CAN_ID, VEL_ESTIMATE_CAN_ID, POS_ESTIMATE_CAN_ID,
    command_offset true, command_offset false]

/-! ## Basic facts about sequencing and the private helpers -/

open MotorController

theorem bind_apply {σ α β : Type} (p : Program σ α) (f : α → Program σ β) (w : World σ) :
    (p >>= f) w = Program.bind p f w := rfl

theorem pure_apply {σ α : Type} (a : α) (w : World σ) :
    (pure a : Program σ α) w = (.returned a, w) := rfl

theorem send_can_command_spec {σ : Type} (E : Env σ) (self : MotorController) (c : Int)
    (flag : Bool) (w : World σ) :
    ∃ m : CANMessage,
      send_can_command E self c flag w =
        (send_outcome (E.can_send w.can m).1,
          { w with can := (E.can_send w.can m).2, trace := w.trace ++ [.sent m] }) ∧
      m.id = Int.lor self.can_id (command_offset flag) ∧ m.dlc = 1 ∧
      m.data 0 = (c % 256).toNat :=
  ⟨{ id := Int.lor self.can_id (command_offset flag),
     data := store_byte (E.fresh w.can).data 0 c, dlc := 1 }, rfl, rfl, rfl, by simp [store_byte]⟩

theorem send_can_data_spec {σ : Type} (E : Env σ) (self : MotorController) (p : Int)
    (v : Nat) (w : World σ) :
    ∃ m : CANMessage,
      send_can_data E self p v w =
        (send_outcome (E.can_send w.can m).1,
          { w with can := (E.can_send w.can m).2, trace := w.trace ++ [.sent m] }) ∧
      m.id = Int.lor self.can_id p ∧ m.dlc = 4 ∧
      (∀ i, i < 4 → m.data i = float_byte E.order v i) ∧
      memcpy_from_data E.order m.data = memcpy_from_data E.order (float_byte E.order v) :=
  ⟨{ id := Int.lor self.can_id p,
     data := memcpy_to_data E.order (E.fresh w.can).data v, dlc := 4 }, rfl, rfl, rfl,
    fun i hi => by simp [memcpy_to_data, hi],
    by cases h : E.order <;> simp [memcpy_from_data, memcpy_to_data]⟩

theorem read_can_data_eq {σ : Type} (E : Env σ) (self : MotorController) (p : Int)
    (w : World σ) :
    read_can_data E self p w =
      ((if (E.can_receive w.can (Int.lor self.can_id p) (E.fresh w.can)).1 = true then
          Outcome.returned (memcpy_from_data E.order
            (E.can_receive w.can (Int.lor self.can_id p) (E.fresh w.can)).2.1.data)
        else Outcome.threw "读取 CAN 数据失败"),
        { w with
          can := (E.can_receive w.can (Int.lor self.can_id p) (E.fresh w.can)).2.2,
          trace := w.trace ++ [.received (Int.lor self.can_id p)
            (E.can_receive w.can (Int.lor self.can_id p) (E.fresh w.can)).1
            (E.can_receive w.can (Int.lor self.can_id p) (E.fresh w.can)).2.1] }) := by
  simp only [read_can_data, bind_apply, Program.bind, declare_msg, can_receive]
  split <;> rfl

theorem set_torque_control_mode_eq {σ : Type} (E : Env σ) (self : MotorController)
    (w : World σ) (m1 m2 : CANMessage)
    (hs1 : send_can_command E self CONTROL_MODE_TORQUE_CONTROL true w =
      (send_outcome (E.can_send w.can m1).1,
        { w with can := (E.can_send w.can m1).2, trace := w.trace ++ [.sent m1] }))
    (hs2 : send_can_command E self AXIS_STATE_CLOSED_LOOP_CONTROL false
        { w with can := (E.can_send w.can m1).2, trace := w.trace ++ [.sent m1] } =
      (send_outcome (E.can_send (E.can_send w.can m1).2 m2).1,
        { w with can := (E.can_send (E.can_send w.can m1).2 m2).2,
                 trace := w.trace ++ [.sent m1] ++ [.sent m2] })) :
    set_torque_control_mode E self w =
      match (E.can_send w.can m1).1 with
      | some what =>
        (.returned (),
          { can := (E.can_send w.can m1).2, trace := w.trace ++ [.sent m1], cout := w.cout,
            cerr := w.cerr ++ ["设置力矩控制模式失败: " ++ what] })
      | none =>
        match (E.can_send (E.can_send w.can m1).2 m2).1 with
        | some what =>
          (.returned (),
            { can := (E.can_send (E.can_send w.can m1).2 m2).2,
              trace := w.trace ++ [.sent m1, .sent m2], cout := w.cout,
              cerr := w.cerr ++ ["设置力矩控制模式失败: " ++ what] })
        | none =>
          (.returned (),
            { can := (E.can_send (E.can_send w.can m1).2 m2).2,
              trace := w.trace ++ [.sent m1, .sent m2],
              cout := w.cout ++ ["已设置为力矩控制模式。"], cerr := w.cerr }) := by
  cases h1 : (E.can_send w.can m1).1 with
  | some what =>
    simp only [set_torque_control_mode, try_catch, bind_apply, Program.bind, hs1, h1,
      send_outcome, cerr]
  | none =>
    cases h2 : (E.can_send (E.can_send w.can m1).2 m2).1 with
    | some what =>
      simp only [set_torque_control_mode, try_catch, bind_apply, Program.bind, hs1, h1,
        send_outcome, hs2, h2, cerr]
      simp
    | none =>
      simp only [set_torque_control_mode, try_catch, bind_apply, Program.bind, hs1, h1,
        send_outcome, hs2, h2, cout]
      simp

/-! ## The claims -/

/-- C2 as stated fails: against a transport whose first `send` throws,
`set_torque_control_mode` hands one frame to the transport, not two, writes the failure to
`std::cerr` and returns. -/
theorem set_torque_control_mode_first_send_throws :
    (sent_frames (set_torque_control_mode (failingSendMock .little 0) (MotorController.make 0x10)
      (World.init 0)).2.trace).length = 1 ∧
    (set_torque_control_mode (failingSendMock .little 0) (MotorController.make 0x10)
      (World.init 0)).2.cerr = ["设置力矩控制模式失败: send failed"] := by
  constructor <;> rfl

/-- C2 amended: for every device id, `set_torque_control_mode` performs no receive and
returns normally.  It first hands the transport the frame with identifier
`can_id | 0x100`, length 1 and byte 0 equal to `0x0A`.  When that `send` does not throw, it
then hands over the frame with identifier `can_id | 0x200`, length 1 and byte 0 equal to
`0x08`, and nothing else: exactly two frames, in that order; a throw of the second `send`
is written to `std::cerr`.  When the first `send` throws, that frame is the only one
handed over and the failure is written to `std::cerr`. -/
theorem set_torque_control_mode_frames {σ : Type} (E : Env σ) (self : MotorController)
    (w : World σ) :
    ∃ m1 : CANMessage,
      m1.id = Int.lor self.can_id 0x100 ∧ m1.dlc = 1 ∧ m1.data 0 = 0x0A ∧
      (set_torque_control_mode E self w).1 = .returned () ∧
      ((E.can_send w.can m1).1 = none →
        ∃ m2 : CANMessage,
          (set_torque_control_mode E self w).2.trace = w.trace ++ [.sent m1, .sent m2] ∧
          (set_torque_control_mode E self w).2.can =
            (E.can_send (E.can_send w.can m1).2 m2).2 ∧
          m2.id = Int.lor self.can_id 0x200 ∧ m2.dlc = 1 ∧ m2.data 0 = 0x08 ∧
          ((E.can_send (E.can_send w.can m1).2 m2).1 = none →
            (set_torque_control_mode E self w).2.cerr = w.cerr) ∧
          (∀ what, (E.can_send (E.can_send w.can m1).2 m2).1 = some what →
            (set_torque_control_mode E self w).2.cerr =
              w.cerr ++ ["设置力矩控制模式失败: " ++ what])) ∧
      (∀ what, (E.can_send w.can m1).1 = some what →
        (set_torque_control_mode E self w).2.trace = w.trace ++ [.sent m1] ∧
        (set_torque_control_mode E self w).2.can = (E.can_send w.can m1).2 ∧
        (set_torque_control_mode E self w).2.cerr =
          w.cerr ++ ["设置力矩控制模式失败: " ++ what]) := by
  obtain ⟨m1, h1, hid1, hdlc1, hb1⟩ :=
    send_can_command_spec E self CONTROL_MODE_TORQUE_CONTROL true w
  obtain ⟨m2, h2, hid2, hdlc2, hb2⟩ :=
    send_can_command_spec E self AXIS_STATE_CLOSED_LOOP_CONTROL false
      { w with can := (E.can_send w.can m1).2, trace := w.trace ++ [.sent m1] }
  have hrun := set_torque_control_mode_eq E self w m1 m2 h1 h2
  refine ⟨m1, hid1, hdlc1, hb1, ?_, ?_, ?_⟩
  · rw [hrun]
    cases (E.can_send w.can m1).1 with
    | some what => rfl
    | none => cases (E.can_send (E.can_send w.can m1).2 m2).1 <;> rfl
  · intro hnone
    rw [hnone] at hrun
    refine ⟨m2, ?_, ?_, hid2, hdlc2, hb2, ?_, ?_⟩
    · rw [hrun]; cases (E.can_send (E.can_send w.can m1).2 m2).1 <;> rfl
    · rw [hrun]; cases (E.can_send (E.can_send w.can m1).2 m2).1 <;> rfl
    · intro h; rw [hrun, h]
    · intro what h; rw [hrun, h]
  · intro what hsome
    rw [hsome] at hrun
    rw [hrun]
    exact ⟨rfl, rfl, rfl⟩

/-- C2 amended, on the device `0x10`: against a mock whose sends return, and against one
whose first `send` throws. -/
theorem set_torque_control_mode_frames_witness :
    (∃ m1 m2 : CANMessage,
      (set_torque_control_mode (constMock .little true 0) (MotorController.make 0x10)
        (World.init ())).2.trace = [.sent m1, .sent m2] ∧
      m1.id = 0x110 ∧ m1.data 0 = 0x0A ∧ m2.id = 0x210 ∧ m2.data 0 = 0x08) ∧
    (∃ m1 : CANMessage,
      (set_torque_control_mode (failingSendMock .little 0) (MotorController.make 0x10)
        (World.init 0)).2.trace = [.sent m1] ∧ m1.id = 0x110 ∧ m1.data 0 = 0x0A) := by
  constructor
  · obtain ⟨m1, hid1, -, hb1, -, h2, -⟩ :=
      set_torque_control_mode_frames (constMock .little true 0) (MotorController.make 0x10)
        (World.init ())
    obtain ⟨m2, ht, -, hid2, -, hb2, -⟩ := h2 rfl
    exact ⟨m1, m2, ht, by rw [hid1]; decide, hb1, by rw [hid2]; decide, hb2⟩
  · obtain ⟨m1, hid1, -, hb1, -, -, h3⟩ :=
      set_torque_control_mode_frames (failingSendMock .little 0) (MotorController.make 0x10)
        (World.init 0)
    exact ⟨m1, (h3 "send failed" rfl).1, by rw [hid1]; decide, hb1⟩

/-- C3: for every device id, command code and flag, `send_can_command` hands exactly one
frame to the transport, with identifier `can_id | 0x100` when the flag is set and
`can_id | 0x200` when it is not, length 1, and byte 0 the command narrowed to a byte, which
is the command itself for every one-byte command code; it returns when `send` returns and
lets the exception escape when `send` throws.  `stop_motor` hands over exactly one frame,
with identifier `can_id | 0x200`, length 1 and byte 0 equal to `0x00`, and returns. -/
theorem send_can_command_frame {σ : Type} (E : Env σ) (self : MotorController) (c : Int)
    (flag : Bool) (w : World σ) :
    (∃ m : CANMessage,
      (send_can_command E self c flag w).1 = send_outcome (E.can_send w.can m).1 ∧
      (send_can_command E self c flag w).2.trace = w.trace ++ [.sent m] ∧
      (send_can_command E self c flag w).2.can = (E.can_send w.can m).2 ∧
      m.id = Int.lor self.can_id (if flag = true then 0x100 else 0x200) ∧ m.dlc = 1 ∧
      m.data 0 = (c % 256).toNat ∧
      (0 ≤ c → c < 256 → (m.data 0 : Int) = c)) ∧
    (∃ m : CANMessage,
      (stop_motor E self w).1 = .returned () ∧
      (stop_motor E self w).2.trace = w.trace ++ [.sent m] ∧
      (stop_motor E self w).2.can = (E.can_send w.can m).2 ∧
      m.id = Int.lor self.can_id 0x200 ∧ m.dlc = 1 ∧ m.data 0 = 0x00) := by
  constructor
  · obtain ⟨m, h, hid, hdlc, hb⟩ := send_can_command_spec E self c flag w
    refine ⟨m, by rw [h], by rw [h], by rw [h], ?_, hdlc, hb, ?_⟩
    · rw [hid]; cases flag <;> rfl
    · intro h0 h1
      rw [hb, Int.emod_eq_of_lt h0 h1]
      exact Int.toNat_of_nonneg h0
  · obtain ⟨m, h, hid, hdlc, hb⟩ := send_can_command_spec E self AXIS_STATE_IDLE false w
    refine ⟨m, ?_, ?_, ?_, hid, hdlc, hb⟩ <;>
      cases hthrow : (E.can_send w.can m).1 <;>
      simp only [stop_motor, try_catch, bind_apply, Program.bind, h, hthrow, send_outcome,
        cout, cerr]

/-- C3, at the command `0x0A` with the control-mode flag set on the device `0x10`. -/
theorem send_can_command_frame_witness :
    ∃ m : CANMessage,
      (send_can_command (constMock .little true 0) (MotorController.make 0x10) 0x0A true
        (World.init ())).2.trace = [.sent m] ∧
      m.id = 0x110 ∧ m.dlc = 1 ∧ (m.data 0 : Int) = 0x0A := by
  obtain ⟨m, _, ht, _, hid, hdlc, _, hb⟩ :=
    (send_can_command_frame (constMock .little true 0) (MotorController.make 0x10) 0x0A true
      (World.init ())).1
  exact ⟨m, ht, by rw [hid]; decide, hdlc, hb (by decide) (by decide)⟩

/-- C4: for every device id, parameter offset and float, `send_can_data` hands exactly
one frame to the transport, with identifier `can_id | p`, length 4 and the four bytes of
the float as payload, and returns when `send` returns; `read_can_data(p)` performs one
receive on identifier `can_id | p`; and `set_input_torque(v)` hands over exactly one
frame, with identifier `can_id | 0x0C`, length 4 and the four bytes of `v`, whatever `v`
is, and returns. -/
theorem send_can_data_frame {σ : Type} (E : Env σ) (self : MotorController) (p : Int)
    (v : Nat) (w : World σ) :
    (∃ m : CANMessage,
      (send_can_data E self p v w).1 = send_outcome (E.can_send w.can m).1 ∧
      (send_can_data E self p v w).2.trace = w.trace ++ [.sent m] ∧
      (send_can_data E self p v w).2.can = (E.can_send w.can m).2 ∧
      m.id = Int.lor self.can_id p ∧ m.dlc = 4 ∧
      (∀ i, i < 4 → m.data i = float_byte E.order v i)) ∧
    (∃ (ok : Bool) (r : CANMessage),
      (read_can_data E self p w).2.trace = w.trace ++ [.received (Int.lor self.can_id p) ok r]) ∧
    (∃ m : CANMessage,
      (set_input_torque E self v w).1 = .returned () ∧
      (set_input_torque E self v w).2.trace = w.trace ++ [.sent m] ∧
      (set_input_torque E self v w).2.can = (E.can_send w.can m).2 ∧
      m.id = Int.lor self.can_id 0x0C ∧ m.dlc = 4 ∧
      (∀ i, i < 4 → m.data i = float_byte E.order v i)) := by
  refine ⟨?_, ?_, ?_⟩
  · obtain ⟨m, h, hid, hdlc, hb, _⟩ := send_can_data_spec E self p v w
    exact ⟨m, by rw [h], by rw [h], by rw [h], hid, hdlc, hb⟩
  · exact ⟨_, _, by rw [read_can_data_eq]⟩
  · obtain ⟨m, h, hid, hdlc, hb, _⟩ := send_can_data_spec E self INPUT_TORQUE_CAN_ID v w
    refine ⟨m, ?_, ?_, ?_, hid, hdlc, hb⟩ <;>
      cases hthrow : (E.can_send w.can m).1 <;>
      simp only [set_input_torque, try_catch, h, hthrow, send_outcome, cerr]

/-- C4, for the torque `3.5f` on the device `0x10`. -/
theorem send_can_data_frame_witness :
    ∃ m : CANMessage,
      (set_input_torque (constMock .little true 0) (MotorController.make 0x10) 0x40600000
        (World.init ())).2.trace = [.sent m] ∧
      m.id = 0x1C ∧ m.dlc = 4 ∧
      m.data 0 = 0x00 ∧ m.data 1 = 0x00 ∧ m.data 2 = 0x60 ∧ m.data 3 = 0x40 := by
  obtain ⟨m, -, ht, -, hid, hdlc, hb⟩ :=
    (send_can_data_frame (constMock .little true 0) (MotorController.make 0x10) 0 0x40600000
      (World.init ())).2.2
  refine ⟨m, ht, by rw [hid]; decide, hdlc, ?_, ?_, ?_, ?_⟩
  · rw [hb 0 (by decide)]; decide
  · rw [hb 1 (by decide)]; decide
  · rw [hb 2 (by decide)]; decide
  · rw [hb 3 (by decide)]; decide

theorem memcpy_roundtrip (order : ByteOrder) (data : Nat → Nat) (v : Nat) (hv : v < 2 ^ 32) :
    memcpy_from_data order (memcpy_to_data order data v) = v := by
  cases order <;> simp [memcpy_from_data, memcpy_to_data, float_byte] <;> omega

/-- C5: for every 32-bit pattern `v` and either byte order, the four bytes `send_can_data`
writes into the frame are bytes, and reading them back the way `read_can_data` does gives
`v` again, so the value of a finite float is unchanged; in particular a frame sent by
`send_can_data` and handed back by the transport makes `read_can_data` return `v`. -/
theorem float_roundtrip (order : ByteOrder) (v : Nat) (hv : v < 2 ^ 32) :
    (∀ data : Nat → Nat, memcpy_from_data order (memcpy_to_data order data v) = v) ∧
    (∀ data : Nat → Nat,
      float_toRat (memcpy_from_data order (memcpy_to_data order data v)) = float_toRat v) ∧
    (∀ i, i < 4 → float_byte order v i < 256) ∧
    (∀ (self : MotorController) (p : Int) (w : World (Int → Option CANMessage)),
      ((send_can_data (mailboxMock order) self p v >>=
        fun _ => read_can_data (mailboxMock order) self p) w).1 = .returned v) := by
  refine ⟨fun data => memcpy_roundtrip order data v hv,
    fun data => by rw [memcpy_roundtrip order data v hv], ?_, ?_⟩
  · intro i _
    cases order <;> exact Nat.mod_lt _ (by norm_num)
  · intro self p w
    obtain ⟨m, h, hid, -, -, hback⟩ := send_can_data_spec (mailboxMock order) self p v w
    have hv2 : memcpy_from_data order (float_byte order v) = v := by
      have := memcpy_roundtrip order (fun _ => 0) v hv
      cases order <;> simpa [memcpy_from_data, memcpy_to_data] using this
    have horder : (mailboxMock order).order = order := rfl
    rw [horder] at hback
    rw [bind_apply]
    simp only [Program.bind, h, read_can_data_eq]
    simp [mailboxMock, send_outcome, hid, hback, hv2]

/-- C5, at the pattern `0xC0600000` of `-3.5f` on a big-endian host. -/
theorem float_roundtrip_witness :
    memcpy_from_data .big (memcpy_to_data .big (fun _ => 0) 0xC0600000) = 0xC0600000 :=
  (float_roundtrip .big 0xC0600000 (by norm_num)).1 (fun _ => 0)

/-- C6: for every device id, each telemetry getter performs exactly one receive, on the
identifier `can_id | offset` with the offsets `0x0D`, `0x0E`, `0x0F`, `0x10`, `0x11` in the
order torque constant, Iq measured, torque estimate, velocity estimate, position
estimate, and sends nothing; it returns the float read from the first four payload bytes
of the received frame when `receive` reports success, and an exception escapes it exactly
when `receive` reports no data.  With device id `0x10` and a frame holding the bytes of
`3.5f` stored at identifier `0x10 | 0x10`, `get_vel_estimate` returns `3.5`. -/
theorem telemetry_getters_read_once {σ : Type} (E : Env σ) (self : MotorController)
    (w : World σ) :
    (∀ gp ∈ [(get_torque_constant E self, (0x0D : Int)), (get_Iq_measured E self, 0x0E),
        (get_torque_estimate E self, 0x0F), (get_vel_estimate E self, 0x10),
        (get_pos_estimate E self, 0x11)],
      (gp.1 w).2.trace = w.trace ++ [.received (Int.lor self.can_id gp.2)
        (E.can_receive w.can (Int.lor self.can_id gp.2) (E.fresh w.can)).1
        (E.can_receive w.can (Int.lor self.can_id gp.2) (E.fresh w.can)).2.1] ∧
      (gp.1 w).2.can = (E.can_receive w.can (Int.lor self.can_id gp.2) (E.fresh w.can)).2.2 ∧
      ((E.can_receive w.can (Int.lor self.can_id gp.2) (E.fresh w.can)).1 = true →
        (gp.1 w).1 = .returned (memcpy_from_data E.order
          (E.can_receive w.can (Int.lor self.can_id gp.2) (E.fresh w.can)).2.1.data)) ∧
      ((∃ what, (gp.1 w).1 = .threw what) ↔
        (E.can_receive w.can (Int.lor self.can_id gp.2) (E.fresh w.can)).1 = false)) ∧
    ((get_vel_estimate (mailboxMock .little) (MotorController.make 0x10)
        (World.init (Function.update (fun _ => none) (Int.lor 0x10 0x10)
          (some (data_frame_of .little (Int.lor 0x10 0x10) 0x40600000))))).1
      = .returned 0x40600000 ∧
      float_toRat 0x40600000 = some (7 / 2)) := by
  constructor
  · intro gp hgp
    have key : ∀ off : Int,
        (read_can_data E self off w).2.trace = w.trace ++ [.received (Int.lor self.can_id off)
          (E.can_receive w.can (Int.lor self.can_id off) (E.fresh w.can)).1
          (E.can_receive w.can (Int.lor self.can_id off) (E.fresh w.can)).2.1] ∧
        (read_can_data E self off w).2.can =
          (E.can_receive w.can (Int.lor self.can_id off) (E.fresh w.can)).2.2 ∧
        ((E.can_receive w.can (Int.lor self.can_id off) (E.fresh w.can)).1 = true →
          (read_can_data E self off w).1 = .returned (memcpy_from_data E.order
            (E.can_receive w.can (Int.lor self.can_id off) (E.fresh w.can)).2.1.data)) ∧
        ((∃ what, (read_can_data E self off w).1 = .threw what) ↔
          (E.can_receive w.can (Int.lor self.can_id off) (E.fresh w.can)).1 = false) := by
      intro off
      rw [read_can_data_eq]
      refine ⟨rfl, rfl, fun h => by simp [h], ?_⟩
      cases (E.can_receive w.can (Int.lor self.can_id off) (E.fresh w.can)).1 <;> simp
    simp only [List.mem_cons, List.mem_singleton, List.not_mem_nil, or_false] at hgp
    rcases hgp with rfl | rfl | rfl | rfl | rfl
    · exact key TORQUE_CONSTANT_CAN_ID
    · exact key IQ_MEASURED_CAN_ID
    · exact key TORQUE_ESTIMATE_CAN_ID
    · exact key VEL_ESTIMATE_CAN_ID
    · exact key POS_ESTIMATE_CAN_ID
  · constructor
    · rw [get_vel_estimate, read_can_data_eq]
      simp [mailboxMock, World.init, MotorController.make, VEL_ESTIMATE_CAN_ID, data_frame_of,
        memcpy_from_data, memcpy_to_data, float_byte]
    · norm_num [float_toRat]

/-- C6, for `get_pos_estimate` against a transport that holds no frame. -/
theorem telemetry_getters_read_once_witness :
    ∃ what : String,
      (get_pos_estimate (mailboxMock .little) (MotorController.make 0x10)
        (World.init (fun _ => none))).1 = .threw what :=
  ((telemetry_getters_read_once (mailboxMock .little) (MotorController.make 0x10)
      (World.init (fun _ => none))).1
    (get_pos_estimate (mailboxMock .little) (MotorController.make 0x10), 0x11)
    (by simp)).2.2.2.mpr rfl

theorem initialize_can_eq {σ : Type} (E : Env σ) (self : MotorController) (w : World σ) :
    initialize_can E self w =
      if (E.can_open w.can self.can_interface).1 = true then
        (.returned (),
          { can := (E.can_open w.can self.can_interface).2,
            trace := w.trace ++ [.opened self.can_interface true],
            cout := w.cout ++ ["正在初始化 CAN 通信...", "CAN 通信已初始化。"],
            cerr := w.cerr })
      else
        (.exited EXIT_FAILURE,
          { can := (E.can_open w.can self.can_interface).2,
            trace := w.trace ++ [.opened self.can_interface false],
            cout := w.cout ++ ["正在初始化 CAN 通信..."],
            cerr := w.cerr ++ ["初始化 CAN 失败: 无法打开 CAN 接口，请检查连接。"] }) := by
  cases h : (E.can_open w.can self.can_interface).1 <;>
    simp [initialize_can, try_catch, bind_apply, Program.bind, cout, cerr, can_open, exit,
      throw_runtime_error, pure_apply, h]

/-- C7 as stated fails: against a transport whose `open` returns `false`,
`initialize_can` ends the process with `exit(EXIT_FAILURE)`; no error reaches the
caller. -/
theorem initialize_can_open_false_terminates :
    (initialize_can (constMock .little false 0) (MotorController.make 0x10)
        (World.init ())).1 = .exited 1 ∧
    ∀ what : String,
      (initialize_can (constMock .little false 0) (MotorController.make 0x10)
        (World.init ())).1 ≠ .threw what := by
  have h : (initialize_can (constMock .little false 0) (MotorController.make 0x10)
      (World.init ())).1 = .exited 1 := by
    rw [initialize_can_eq]; rfl
  refine ⟨h, fun what hw => ?_⟩
  rw [h] at hw
  cases hw

/-- C7 amended: when `open` returns `false`, `initialize_can` calls `open` once, writes the
failure to `std::cerr` and ends the process with status `EXIT_FAILURE`; when `open`
returns `true` it calls `open` once and returns normally. -/
theorem initialize_can_outcome {σ : Type} (E : Env σ) (self : MotorController)
    (w : World σ) :
    ((E.can_open w.can self.can_interface).1 = false →
      (initialize_can E self w).1 = .exited EXIT_FAILURE ∧
      (initialize_can E self w).2.trace = w.trace ++ [.opened self.can_interface false] ∧
      (initialize_can E self w).2.cerr =
        w.cerr ++ ["初始化 CAN 失败: 无法打开 CAN 接口，请检查连接。"]) ∧
    ((E.can_open w.can self.can_interface).1 = true →
      (initialize_can E self w).1 = .returned () ∧
      (initialize_can E self w).2.trace = w.trace ++ [.opened self.can_interface true] ∧
      (initialize_can E self w).2.cerr = w.cerr) := by
  constructor <;> intro h <;> rw [initialize_can_eq] <;> simp [h]

/-- C7 amended, at a transport that cannot be opened and at one that can. -/
theorem initialize_can_outcome_witness :
    (initialize_can (constMock .little false 0) (MotorController.make 0x10)
        (World.init ())).2.trace = [.opened "can0" false] ∧
    (initialize_can (constMock .little true 0) (MotorController.make 0x10)
        (World.init ())).1 = .returned () :=
  ⟨((initialize_can_outcome (constMock .little false 0) (MotorController.make 0x10)
      (World.init ())).1 rfl).2.1,
   ((initialize_can_outcome (constMock .little true 0) (MotorController.make 0x10)
      (World.init ())).2 rfl).1⟩

theorem lor_zero_right (a : ℤ) : Int.lor a 0 = a := by
  cases a with
  | ofNat m => show ((m ||| 0 : ℕ) : ℤ) = m; simp
  | negSucc m =>
    show Int.negSucc (Nat.ldiff m 0) = Int.negSucc m
    congr 1
    apply Nat.eq_of_testBit_eq
    intro k
    simp [Nat.testBit_ldiff]

theorem wait_zero {σ : Type} (E : Env σ) (self : MotorController) (w : World σ) :
    wait_for_idle_state E self 0 w = (.unfinished, w) := rfl

theorem wait_succ {σ : Type} (E : Env σ) (self : MotorController) (fuel : Nat)
    (w : World σ) :
    wait_for_idle_state E self (fuel + 1) w =
      if (E.can_receive w.can (Int.lor self.can_id AXIS_STATE_IDLE) (E.fresh w.can)).1 = true then
        if reports_idle E.order
            (E.can_receive w.can (Int.lor self.can_id AXIS_STATE_IDLE) (E.fresh w.can)).2.1 = true then
          (.returned (),
            { w with
              can := (E.can_receive w.can (Int.lor self.can_id AXIS_STATE_IDLE) (E.fresh w.can)).2.2,
              trace := w.trace ++ [.received (Int.lor self.can_id AXIS_STATE_IDLE) true
                (E.can_receive w.can (Int.lor self.can_id AXIS_STATE_IDLE) (E.fresh w.can)).2.1] })
        else
          wait_for_idle_state E self fuel
            { w with
              can := E.sleep_for
                (E.can_receive w.can (Int.lor self.can_id AXIS_STATE_IDLE) (E.fresh w.can)).2.2 100,
              trace := w.trace ++ [.received (Int.lor self.can_id AXIS_STATE_IDLE) true
                (E.can_receive w.can (Int.lor self.can_id AXIS_STATE_IDLE) (E.fresh w.can)).2.1,
                .slept 100] }
      else
        (.threw "读取 CAN 数据失败",
          { w with
            can := (E.can_receive w.can (Int.lor self.can_id AXIS_STATE_IDLE) (E.fresh w.can)).2.2,
            trace := w.trace ++ [.received (Int.lor self.can_id AXIS_STATE_IDLE) false
              (E.can_receive w.can (Int.lor self.can_id AXIS_STATE_IDLE) (E.fresh w.can)).2.1] }) := by
  rw [wait_for_idle_state, bind_apply]
  simp only [Program.bind, read_can_data_eq]
  cases h : (E.can_receive w.can (Int.lor self.can_id AXIS_STATE_IDLE) (E.fresh w.can)).1
  · simp
  · cases h2 : reports_idle E.order
        (E.can_receive w.can (Int.lor self.can_id AXIS_STATE_IDLE) (E.fresh w.can)).2.1
    · have h3 : float_ne (memcpy_from_data E.order
          (E.can_receive w.can (Int.lor self.can_id AXIS_STATE_IDLE) (E.fresh w.can)).2.1.data)
          AXIS_STATE_IDLE_as_float = true := by
        simpa [reports_idle] using h2
      simp [h3, bind_apply, Program.bind, sleep_for]
    · have h3 : float_ne (memcpy_from_data E.order
          (E.can_receive w.can (Int.lor self.can_id AXIS_STATE_IDLE) (E.fresh w.can)).2.1.data)
          AXIS_STATE_IDLE_as_float = false := by
        simpa [reports_idle] using h2
      simp [h3, pure_apply]

theorem wait_returned_trace {σ : Type} (E : Env σ) (self : MotorController) :
    ∀ (fuel : Nat) (w w1 : World σ),
      wait_for_idle_state E self fuel w = (.returned (), w1) →
      ∃ l, w1.trace = w.trace ++ l ∧
        idle_wait_trace E.order (Int.lor self.can_id AXIS_STATE_IDLE) l = true ∧
        sent_frames l = [] := by
  intro fuel
  induction fuel with
  | zero =>
    intro w w1 h
    rw [wait_zero] at h
    cases h
  | succ fuel ih =>
    intro w w1 h
    rw [wait_succ] at h
    split at h
    · split at h
      · rename_i hidle
        cases h
        exact ⟨_, rfl, by simp [idle_wait_trace, hidle], rfl⟩
      · rename_i hbusy
        obtain ⟨l, hl, hshape, hsent⟩ := ih _ _ h
        refine ⟨.received (Int.lor self.can_id AXIS_STATE_IDLE) true
          (E.can_receive w.can (Int.lor self.can_id AXIS_STATE_IDLE) (E.fresh w.can)).2.1 ::
          .slept 100 :: l, ?_, ?_, ?_⟩
        · rw [hl]; simp
        · simp [idle_wait_trace, hbusy, hshape]
        · simp only [sent_frames, hsent]
    · cases h

theorem wait_mono {σ : Type} (E : Env σ) (self : MotorController) :
    ∀ (fuel : Nat) (w w1 : World σ) (o : Outcome Unit),
      wait_for_idle_state E self fuel w = (o, w1) → o ≠ .unfinished →
      ∀ k, wait_for_idle_state E self (fuel + k) w = (o, w1) := by
  intro fuel
  induction fuel with
  | zero =>
    intro w w1 o h ho
    rw [wait_zero] at h
    cases h
    exact absurd rfl ho
  | succ fuel ih =>
    intro w w1 o h ho k
    rw [wait_succ] at h
    rw [show fuel + 1 + k = (fuel + k) + 1 by omega, wait_succ]
    split at h
    · rename_i hok
      rw [if_pos hok]
      split at h
      · rename_i hidle
        rw [if_pos hidle]; exact h
      · rename_i hbusy
        rw [if_neg hbusy]; exact ih _ _ _ h ho k
    · rename_i hok
      rw [if_neg hok]; exact h

theorem busy_polls_counts (id : Int) (idle : CANMessage) (busy : List CANMessage) :
    received_ids (busy_polls id busy ++ [.received id true idle]) =
      List.replicate (busy.length + 1) id ∧
    sleeps (busy_polls id busy ++ [.received id true idle]) = List.replicate busy.length 100 ∧
    sent_frames (busy_polls id busy ++ [.received id true idle]) = [] := by
  induction busy with
  | nil => exact ⟨rfl, rfl, rfl⟩
  | cons m busy ih =>
    obtain ⟨h1, h2, h3⟩ := ih
    have e : busy_polls id (m :: busy) ++ [.received id true idle] =
        .received id true m :: .slept 100 ::
          (busy_polls id busy ++ [.received id true idle]) := rfl
    rw [e]
    refine ⟨?_, ?_, ?_⟩
    · simp only [received_ids, h1, List.length_cons]
      rfl
    · simp only [sleeps, h2, List.length_cons]
      rfl
    · simp only [sent_frames, h3]

theorem scripted_receive_cons (order : ByteOrder) (m : CANMessage) (s : List CANMessage)
    (id : Int) (msg : CANMessage) :
    (scriptedMock order).can_receive (m :: s) id msg = (true, m, s) := rfl

theorem scripted_sleep (order : ByteOrder) (s : List CANMessage) (ms : Nat) :
    (scriptedMock order).sleep_for s ms = s := rfl

theorem scripted_order (order : ByteOrder) : (scriptedMock order).order = order := rfl

theorem wait_scripted (order : ByteOrder) (self : MotorController) (idle : CANMessage)
    (rest : List CANMessage) (hidle : reports_idle order idle = true) :
    ∀ (busy : List CANMessage) (w : World (List CANMessage)) (fuel : Nat),
      w.can = busy ++ idle :: rest →
      (∀ m ∈ busy, reports_idle order m = false) →
      busy.length + 1 ≤ fuel →
      wait_for_idle_state (scriptedMock order) self fuel w =
        (.returned (),
          { w with
            can := rest,
            trace := w.trace ++ (busy_polls (Int.lor self.can_id AXIS_STATE_IDLE) busy ++
              [.received (Int.lor self.can_id AXIS_STATE_IDLE) true idle]) }) := by
  intro busy
  induction busy with
  | nil =>
    intro w fuel hw _ hfuel
    obtain ⟨f, rfl⟩ : ∃ f, fuel = f + 1 := ⟨fuel - 1, by simp at hfuel; omega⟩
    rw [wait_succ]
    rw [List.nil_append] at hw
    simp only [hw, scripted_receive_cons, scripted_order, hidle, if_true]
    rfl
  | cons m busy ih =>
    intro w fuel hw hbusy hfuel
    obtain ⟨f, rfl⟩ : ∃ f, fuel = f + 1 := ⟨fuel - 1, by simp at hfuel; omega⟩
    have hm : reports_idle order m = false := hbusy m (by simp)
    rw [wait_succ]
    rw [List.cons_append] at hw
    simp only [hw, scripted_receive_cons, scripted_order, scripted_sleep, hm, if_true,
      Bool.false_eq_true, if_false]
    rw [ih _ f rfl (fun x hx => hbusy x (by simp [hx])) (by simp at hfuel; omega)]
    simp [busy_polls]

/-- C8: against a transport that answers the successive polls with the frames
`busy ++ [idle]`, where no frame of `busy` reports IDLE and `idle` does (so the poll
number `k = busy.length + 1` is the first to report IDLE), `wait_for_idle_state` returns,
for every fuel of at least `k`, after exactly `k` receives on the identifier
`can_id | 0x00` (which is `can_id`), exactly `k - 1` sleeps of 100 ms, and no send; when
the first poll of any transport reports IDLE, it returns after that one receive without
sleeping. -/
theorem wait_for_idle_state_returns (order : ByteOrder) (self : MotorController)
    (busy : List CANMessage) (idle : CANMessage) (rest : List CANMessage)
    (w : World (List CANMessage)) (fuel : Nat)
    (hw : w.can = busy ++ idle :: rest)
    (hbusy : ∀ m ∈ busy, reports_idle order m = false)
    (hidle : reports_idle order idle = true)
    (hfuel : busy.length + 1 ≤ fuel) :
    (wait_for_idle_state (scriptedMock order) self fuel w).1 = .returned () ∧
    (wait_for_idle_state (scriptedMock order) self fuel w).2.trace =
      w.trace ++ (busy_polls (Int.lor self.can_id 0x00) busy ++
        [.received (Int.lor self.can_id 0x00) true idle]) ∧
    (wait_for_idle_state (scriptedMock order) self fuel w).2.can = rest ∧
    received_ids (busy_polls (Int.lor self.can_id 0x00) busy ++
        [.received (Int.lor self.can_id 0x00) true idle]) =
      List.replicate (busy.length + 1) (Int.lor self.can_id 0x00) ∧
    sleeps (busy_polls (Int.lor self.can_id 0x00) busy ++
        [.received (Int.lor self.can_id 0x00) true idle]) = List.replicate busy.length 100 ∧
    sent_frames (busy_polls (Int.lor self.can_id 0x00) busy ++
        [.received (Int.lor self.can_id 0x00) true idle]) = [] ∧
    Int.lor self.can_id 0x00 = self.can_id ∧
    (∀ {σ : Type} (E : Env σ) (v : World σ) (n : Nat),
      (E.can_receive v.can (Int.lor self.can_id 0x00) (E.fresh v.can)).1 = true →
      reports_idle E.order
        (E.can_receive v.can (Int.lor self.can_id 0x00) (E.fresh v.can)).2.1 = true →
      (wait_for_idle_state E self (n + 1) v).1 = .returned () ∧
      (wait_for_idle_state E self (n + 1) v).2.trace = v.trace ++
        [.received (Int.lor self.can_id 0x00) true
          (E.can_receive v.can (Int.lor self.can_id 0x00) (E.fresh v.can)).2.1]) := by
  have hrun := wait_scripted order self idle rest hidle busy w fuel hw hbusy hfuel
  obtain ⟨c1, c2, c3⟩ := busy_polls_counts (Int.lor self.can_id 0x00) idle busy
  refine ⟨by rw [hrun], by rw [hrun]; rfl, by rw [hrun], c1, c2, c3, lor_zero_right _, ?_⟩
  intro σ E v n hok hid
  have h := wait_succ E self n v
  rw [show AXIS_STATE_IDLE = 0x00 from rfl, if_pos hok, if_pos hid] at h
  rw [h]
  exact ⟨rfl, rfl⟩

/-- C8, with two polls that report the state `1.0f` before the poll that reports `0.0f`. -/
theorem wait_for_idle_state_returns_witness :
    (wait_for_idle_state (scriptedMock .little) (MotorController.make 0x10) 3
      (World.init [data_frame_of .little 0x10 0x3F800000, data_frame_of .little 0x10 0x3F800000,
        data_frame_of .little 0x10 0])).1 = .returned () ∧
    sleeps (busy_polls (Int.lor (MotorController.make 0x10).can_id 0x00)
        [data_frame_of .little 0x10 0x3F800000, data_frame_of .little 0x10 0x3F800000] ++
        [.received (Int.lor (MotorController.make 0x10).can_id 0x00) true
          (data_frame_of .little 0x10 0)]) = [100, 100] :=
  have h := wait_for_idle_state_returns .little (MotorController.make 0x10)
    [data_frame_of .little 0x10 0x3F800000, data_frame_of .little 0x10 0x3F800000]
    (data_frame_of .little 0x10 0) []
    (World.init [data_frame_of .little 0x10 0x3F800000, data_frame_of .little 0x10 0x3F800000,
        data_frame_of .little 0x10 0]) 3 rfl
    (by intro m hm
        simp only [List.mem_cons, List.mem_singleton, List.not_mem_nil, or_false, or_self] at hm
        subst hm
        decide)
    (by decide) (by decide)
  ⟨h.1, h.2.2.2.2.1⟩

theorem wait_never_idle {σ : Type} (E : Env σ) (self : MotorController)
    (hbusy : ∀ (s : σ) (id : Int) (msg : CANMessage),
      (E.can_receive s id msg).1 = true ∧
      reports_idle E.order (E.can_receive s id msg).2.1 = false) :
    ∀ (n : Nat) (w : World σ),
      (wait_for_idle_state E self n w).1 = .unfinished ∧
      ∃ l, (wait_for_idle_state E self n w).2.trace = w.trace ++ l ∧
        received_ids l = List.replicate n (Int.lor self.can_id AXIS_STATE_IDLE) ∧
        sleeps l = List.replicate n 100 ∧ sent_frames l = [] := by
  intro n
  induction n with
  | zero =>
    intro w
    exact ⟨rfl, [], by simp [wait_zero], rfl, rfl, rfl⟩
  | succ n ih =>
    intro w
    obtain ⟨hok, hne⟩ := hbusy w.can (Int.lor self.can_id AXIS_STATE_IDLE) (E.fresh w.can)
    rw [wait_succ, if_pos hok, if_neg (by rw [hne]; exact Bool.false_ne_true)]
    obtain ⟨h1, l, h2, h3, h4, h5⟩ := ih
      { w with
        can := E.sleep_for
          (E.can_receive w.can (Int.lor self.can_id AXIS_STATE_IDLE) (E.fresh w.can)).2.2 100,
        trace := w.trace ++ [.received (Int.lor self.can_id AXIS_STATE_IDLE) true
          (E.can_receive w.can (Int.lor self.can_id AXIS_STATE_IDLE) (E.fresh w.can)).2.1,
          .slept 100] }
    refine ⟨h1, .received (Int.lor self.can_id AXIS_STATE_IDLE) true
          (E.can_receive w.can (Int.lor self.can_id AXIS_STATE_IDLE) (E.fresh w.can)).2.1 ::
          .slept 100 :: l, ?_, ?_, ?_, ?_⟩
    · rw [h2]; simp
    · simp only [received_ids, h3]; rfl
    · simp only [sleeps, h4]; rfl
    · simp only [sent_frames, h5]

theorem constMock_busy (s : Unit) (id : Int) (msg : CANMessage) :
    ((constMock .little true 0x3F800000).can_receive s id msg).1 = true ∧
    reports_idle (constMock .little true 0x3F800000).order
      ((constMock .little true 0x3F800000).can_receive s id msg).2.1 = false :=
  ⟨rfl, by
    show reports_idle .little (data_frame_of .little 0 0x3F800000) = false
    decide⟩

/-- C9 as stated fails: against a transport whose polls always succeed with the state
`1.0f`, no number of polls makes `wait_for_idle_state` end, with a timeout error or in any
other way. -/
theorem wait_for_idle_state_has_no_timeout :
    ¬ ∃ fuel : Nat,
      (wait_for_idle_state (constMock .little true 0x3F800000) (MotorController.make 0x10) fuel
        (World.init ())).1 ≠ .unfinished := by
  rintro ⟨fuel, h⟩
  exact h (wait_never_idle _ _ constMock_busy fuel _).1

/-- C9 amended: given a transport whose polls always succeed but never report IDLE,
`wait_for_idle_state` neither returns nor fails: for every `n` it is still looping after
`n` receives on `can_id | 0x00`, `n` sleeps of 100 ms and no send. -/
theorem wait_for_idle_state_polls_forever {σ : Type} (E : Env σ) (self : MotorController)
    (w : World σ) (n : Nat)
    (hbusy : ∀ (s : σ) (id : Int) (msg : CANMessage),
      (E.can_receive s id msg).1 = true ∧
      reports_idle E.order (E.can_receive s id msg).2.1 = false) :
    (wait_for_idle_state E self n w).1 = .unfinished ∧
    ∃ l, (wait_for_idle_state E self n w).2.trace = w.trace ++ l ∧
      received_ids l = List.replicate n (Int.lor self.can_id 0x00) ∧
      sleeps l = List.replicate n 100 ∧ sent_frames l = [] :=
  wait_never_idle E self hbusy n w

/-- C9 amended, at three polls of a transport that always reports the state `1.0f`. -/
theorem wait_for_idle_state_polls_forever_witness :
    (wait_for_idle_state (constMock .little true 0x3F800000) (MotorController.make 0x10) 3
      (World.init ())).1 = .unfinished :=
  (wait_for_idle_state_polls_forever (constMock .little true 0x3F800000)
    (MotorController.make 0x10) (World.init ()) 3 constMock_busy).1

theorem sent_frames_append (l1 l2 : List Event) :
    sent_frames (l1 ++ l2) = sent_frames l1 ++ sent_frames l2 := by
  induction l1 with
  | nil => rfl
  | cons e l1 ih => cases e <;> simp [sent_frames, ih]

theorem calibrate_motor_eq {σ : Type} (E : Env σ) (self : MotorController) (fuel : Nat)
    (w w0 wa w1 wb w2 : World σ)
    (hc : cout "开始校准..." w = (.returned (), w0))
    (hs1 : send_can_command E self AXIS_STATE_MOTOR_CALIBRATION false w0 = (.returned (), wa))
    (h1 : wait_for_idle_state E self fuel wa = (.returned (), w1))
    (hs2 : send_can_command E self AXIS_STATE_ENCODER_OFFSET_CALIBRATION false w1 =
      (.returned (), wb))
    (h2 : wait_for_idle_state E self fuel wb = (.returned (), w2)) :
    calibrate_motor E self fuel w =
      (.returned (), { w2 with cout := w2.cout ++ ["校准完成。"] }) := by
  simp only [calibrate_motor, try_catch, bind_apply, Program.bind, hc, hs1, h1, hs2, h2]
  rfl

theorem calibrate_motor_first_throw {σ : Type} (E : Env σ) (self : MotorController)
    (fuel : Nat) (w w0 wa : World σ) (what : String)
    (hc : cout "开始校准..." w = (.returned (), w0))
    (hs1 : send_can_command E self AXIS_STATE_MOTOR_CALIBRATION false w0 = (.threw what, wa)) :
    calibrate_motor E self fuel w =
      (.exited EXIT_FAILURE, { wa with cerr := wa.cerr ++ ["校准失败: " ++ what] }) := by
  simp only [calibrate_motor, try_catch, bind_apply, Program.bind, hc, hs1, cerr, exit]

theorem calibrate_motor_second_throw {σ : Type} (E : Env σ) (self : MotorController)
    (fuel : Nat) (w w0 wa w1 wb : World σ) (what : String)
    (hc : cout "开始校准..." w = (.returned (), w0))
    (hs1 : send_can_command E self AXIS_STATE_MOTOR_CALIBRATION false w0 = (.returned (), wa))
    (h1 : wait_for_idle_state E self fuel wa = (.returned (), w1))
    (hs2 : send_can_command E self AXIS_STATE_ENCODER_OFFSET_CALIBRATION false w1 =
      (.threw what, wb)) :
    calibrate_motor E self fuel w =
      (.exited EXIT_FAILURE, { wb with cerr := wb.cerr ++ ["校准失败: " ++ what] }) := by
  simp only [calibrate_motor, try_catch, bind_apply, Program.bind, hc, hs1, h1, hs2, cerr, exit]

theorem wait_first_idle {σ : Type} (E : Env σ) (self : MotorController)
    (hidle : ∀ (s : σ) (id : Int) (msg : CANMessage),
      (E.can_receive s id msg).1 = true ∧
      reports_idle E.order (E.can_receive s id msg).2.1 = true)
    (f : Nat) (v : World σ) :
    ∃ (w1 : World σ) (r : CANMessage),
      wait_for_idle_state E self (f + 1) v = (.returned (), w1) ∧
      w1.trace = v.trace ++ [.received (Int.lor self.can_id AXIS_STATE_IDLE) true r] ∧
      reports_idle E.order r = true := by
  have h := wait_succ E self f v
  rw [if_pos (hidle _ _ _).1, if_pos (hidle _ _ _).2] at h
  exact ⟨_, _, h, rfl, (hidle _ _ _).2⟩

theorem constMock_idle (s : Unit) (id : Int) (msg : CANMessage) :
    ((constMock .little true 0).can_receive s id msg).1 = true ∧
    reports_idle (constMock .little true 0).order
      ((constMock .little true 0).can_receive s id msg).2.1 = true :=
  ⟨rfl, by
    show reports_idle .little (data_frame_of .little 0 0) = true
    decide⟩

/-- C1 as stated fails: against a transport that reports IDLE on every poll, so that
every idle wait terminates without a read failure, but whose `send` throws,
`calibrate_motor` hands one frame to the transport, performs no poll, and ends the
process with `exit(EXIT_FAILURE)`. -/
theorem calibrate_motor_send_throws :
    (calibrate_motor (failingSendMock .little 0) (MotorController.make 0x10) 1
      (World.init 0)).1 = .exited 1 ∧
    (sent_frames (calibrate_motor (failingSendMock .little 0) (MotorController.make 0x10) 1
      (World.init 0)).2.trace).length = 1 ∧
    (calibrate_motor (failingSendMock .little 0) (MotorController.make 0x10) 1
      (World.init 0)).2.trace.length = 1 := by
  refine ⟨rfl, rfl, rfl⟩

/-- C1 amended: on every transport on which no `send` throws and the two idle waits return
(the first after at most `n1` polls, the second after at most `n2`), `calibrate_motor`
returns for every fuel of at least `n1` and `n2`, and what it adds to the trace is: the
frame with identifier `can_id | 0x200`, length 1 and byte 0 equal to `0x01`; a completed
idle wait (polls on `can_id | 0x00` separated by sleeps, the last poll reporting IDLE);
the frame with identifier `can_id | 0x200`, length 1 and byte 0 equal to `0x03`; a second
completed idle wait; so exactly these two frames are sent.  On a transport that reports
IDLE on every poll and whose sends do not throw, the added trace is exactly send, poll,
send, poll.  When a `send` throws, `calibrate_motor` hands over no further frame, writes
the failure to `std::cerr` and ends the process with `exit(EXIT_FAILURE)`. -/
theorem calibrate_motor_sequence {σ : Type} (E : Env σ) (self : MotorController)
    (w : World σ) :
    (∀ (n1 n2 : Nat) (w1 w2 : World σ),
      (send_can_command E self AXIS_STATE_MOTOR_CALIBRATION false (cout "开始校准..." w).2).1 =
        .returned () →
      wait_for_idle_state E self n1
        (send_can_command E self AXIS_STATE_MOTOR_CALIBRATION false (cout "开始校准..." w).2).2 =
          (.returned (), w1) →
      (send_can_command E self AXIS_STATE_ENCODER_OFFSET_CALIBRATION false w1).1 =
        .returned () →
      wait_for_idle_state E self n2
        (send_can_command E self AXIS_STATE_ENCODER_OFFSET_CALIBRATION false w1).2 =
          (.returned (), w2) →
      ∀ fuel, n1 ≤ fuel → n2 ≤ fuel →
      ∃ (m1 m2 : CANMessage) (l1 l2 : List Event),
        (calibrate_motor E self fuel w).1 = .returned () ∧
        (calibrate_motor E self fuel w).2.trace = w.trace ++ (.sent m1 :: l1 ++ .sent m2 :: l2) ∧
        m1.id = Int.lor self.can_id 0x200 ∧ m1.dlc = 1 ∧ m1.data 0 = 0x01 ∧
        m2.id = Int.lor self.can_id 0x200 ∧ m2.dlc = 1 ∧ m2.data 0 = 0x03 ∧
        idle_wait_trace E.order (Int.lor self.can_id 0x00) l1 = true ∧
        idle_wait_trace E.order (Int.lor self.can_id 0x00) l2 = true ∧
        sent_frames (.sent m1 :: l1 ++ .sent m2 :: l2) = [m1, m2]) ∧
    ((∀ (s : σ) (id : Int) (msg : CANMessage),
        (E.can_receive s id msg).1 = true ∧
        reports_idle E.order (E.can_receive s id msg).2.1 = true) →
      (∀ (s : σ) (msg : CANMessage), (E.can_send s msg).1 = none) →
      ∀ fuel, 1 ≤ fuel →
      ∃ m1 m2 r1 r2 : CANMessage,
        (calibrate_motor E self fuel w).1 = .returned () ∧
        (calibrate_motor E self fuel w).2.trace = w.trace ++
          [.sent m1, .received (Int.lor self.can_id 0x00) true r1,
            .sent m2, .received (Int.lor self.can_id 0x00) true r2] ∧
        m1.id = Int.lor self.can_id 0x200 ∧ m1.dlc = 1 ∧ m1.data 0 = 0x01 ∧
        m2.id = Int.lor self.can_id 0x200 ∧ m2.dlc = 1 ∧ m2.data 0 = 0x03 ∧
        reports_idle E.order r1 = true ∧ reports_idle E.order r2 = true) ∧
    (∀ (what : String) (fuel : Nat),
      (send_can_command E self AXIS_STATE_MOTOR_CALIBRATION false (cout "开始校准..." w).2).1 =
        .threw what →
      ∃ m1 : CANMessage,
        (calibrate_motor E self fuel w).1 = .exited EXIT_FAILURE ∧
        (calibrate_motor E self fuel w).2.trace = w.trace ++ [.sent m1] ∧
        (calibrate_motor E self fuel w).2.cerr = w.cerr ++ ["校准失败: " ++ what] ∧
        m1.id = Int.lor self.can_id 0x200 ∧ m1.dlc = 1 ∧ m1.data 0 = 0x01) ∧
    (∀ (what : String) (fuel : Nat) (w1 : World σ),
      (send_can_command E self AXIS_STATE_MOTOR_CALIBRATION false (cout "开始校准..." w).2).1 =
        .returned () →
      wait_for_idle_state E self fuel
        (send_can_command E self AXIS_STATE_MOTOR_CALIBRATION false (cout "开始校准..." w).2).2 =
          (.returned (), w1) →
      (send_can_command E self AXIS_STATE_ENCODER_OFFSET_CALIBRATION false w1).1 =
        .threw what →
      ∃ (m1 m2 : CANMessage) (l1 : List Event),
        (calibrate_motor E self fuel w).1 = .exited EXIT_FAILURE ∧
        (calibrate_motor E self fuel w).2.trace = w.trace ++ (.sent m1 :: l1 ++ [.sent m2]) ∧
        (calibrate_motor E self fuel w).2.cerr = w1.cerr ++ ["校准失败: " ++ what] ∧
        m1.id = Int.lor self.can_id 0x200 ∧ m1.dlc = 1 ∧ m1.data 0 = 0x01 ∧
        m2.id = Int.lor self.can_id 0x200 ∧ m2.dlc = 1 ∧ m2.data 0 = 0x03 ∧
        idle_wait_trace E.order (Int.lor self.can_id 0x00) l1 = true) := by
  obtain ⟨m1, hs1, hid1, hdlc1, hb1⟩ := send_can_command_spec E self
    AXIS_STATE_MOTOR_CALIBRATION false (cout "开始校准..." w).2
  have hst1 : (send_can_command E self AXIS_STATE_MOTOR_CALIBRATION false
      (cout "开始校准..." w).2).2.trace = w.trace ++ [.sent m1] := by rw [hs1]; rfl
  have hsc1 : (send_can_command E self AXIS_STATE_MOTOR_CALIBRATION false
      (cout "开始校准..." w).2).2.cerr = w.cerr := by rw [hs1]; rfl
  refine ⟨?_, ?_, ?_, ?_⟩
  · intro n1 n2 w1 w2 hr1 h1 hr2 h2 fuel hf1 hf2
    obtain ⟨m2, hs2, hid2, hdlc2, hb2⟩ := send_can_command_spec E self
      AXIS_STATE_ENCODER_OFFSET_CALIBRATION false w1
    have hst2 : (send_can_command E self AXIS_STATE_ENCODER_OFFSET_CALIBRATION false
        w1).2.trace = w1.trace ++ [.sent m2] := by rw [hs2]
    have h1f := wait_mono E self n1 _ _ _ h1 (by intro h; cases h) (fuel - n1)
    have h2f := wait_mono E self n2 _ _ _ h2 (by intro h; cases h) (fuel - n2)
    rw [show n1 + (fuel - n1) = fuel by omega] at h1f
    rw [show n2 + (fuel - n2) = fuel by omega] at h2f
    have hrun := calibrate_motor_eq E self fuel w _ _ w1 _ w2 rfl
      (Prod.ext hr1 rfl) h1f (Prod.ext hr2 rfl) h2f
    obtain ⟨l1, ht1, hshape1, hsent1⟩ := wait_returned_trace E self n1 _ _ h1
    obtain ⟨l2, ht2, hshape2, hsent2⟩ := wait_returned_trace E self n2 _ _ h2
    refine ⟨m1, m2, l1, l2, by rw [hrun], ?_, hid1, hdlc1, hb1, hid2, hdlc2, hb2,
      hshape1, hshape2, ?_⟩
    · rw [hrun]
      show w2.trace = _
      rw [ht2, hst2, ht1, hst1]
      simp
    · rw [show Event.sent m1 :: l1 ++ Event.sent m2 :: l2 =
          [Event.sent m1] ++ l1 ++ ([Event.sent m2] ++ l2) by simp]
      simp only [sent_frames_append, hsent1, hsent2]
      rfl
  · intro hidle hsend fuel hfuel
    obtain ⟨f, rfl⟩ : ∃ f, fuel = f + 1 := ⟨fuel - 1, by omega⟩
    have hr1 : (send_can_command E self AXIS_STATE_MOTOR_CALIBRATION false
        (cout "开始校准..." w).2).1 = .returned () := by rw [hs1, hsend]; rfl
    obtain ⟨w1, r1, hw1, ht1, hr1i⟩ := wait_first_idle E self hidle f
      (send_can_command E self AXIS_STATE_MOTOR_CALIBRATION false (cout "开始校准..." w).2).2
    obtain ⟨m2, hs2, hid2, hdlc2, hb2⟩ := send_can_command_spec E self
      AXIS_STATE_ENCODER_OFFSET_CALIBRATION false w1
    have hst2 : (send_can_command E self AXIS_STATE_ENCODER_OFFSET_CALIBRATION false
        w1).2.trace = w1.trace ++ [.sent m2] := by rw [hs2]
    have hr2 : (send_can_command E self AXIS_STATE_ENCODER_OFFSET_CALIBRATION false
        w1).1 = .returned () := by rw [hs2, hsend]; rfl
    obtain ⟨w2, r2, hw2, ht2, hr2i⟩ := wait_first_idle E self hidle f
      (send_can_command E self AXIS_STATE_ENCODER_OFFSET_CALIBRATION false w1).2
    have hrun := calibrate_motor_eq E self (f + 1) w _ _ w1 _ w2 rfl
      (Prod.ext hr1 rfl) hw1 (Prod.ext hr2 rfl) hw2
    refine ⟨m1, m2, r1, r2, by rw [hrun], ?_, hid1, hdlc1, hb1, hid2, hdlc2, hb2, hr1i, hr2i⟩
    rw [hrun]
    show w2.trace = _
    rw [ht2, hst2, ht1, hst1]
    simp
    rfl
  · intro what fuel hthrow
    have hrun := calibrate_motor_first_throw E self fuel w _ _ what rfl (Prod.ext hthrow rfl)
    refine ⟨m1, by rw [hrun], ?_, ?_, hid1, hdlc1, hb1⟩
    · rw [hrun]; exact hst1
    · rw [hrun]
      exact congrArg (fun l => l ++ ["校准失败: " ++ what]) hsc1
  · intro what fuel w1 hr1 h1 hthrow
    obtain ⟨m2, hs2, hid2, hdlc2, hb2⟩ := send_can_command_spec E self
      AXIS_STATE_ENCODER_OFFSET_CALIBRATION false w1
    have hst2 : (send_can_command E self AXIS_STATE_ENCODER_OFFSET_CALIBRATION false
        w1).2.trace = w1.trace ++ [.sent m2] := by rw [hs2]
    have hsc2 : (send_can_command E self AXIS_STATE_ENCODER_OFFSET_CALIBRATION false
        w1).2.cerr = w1.cerr := by rw [hs2]
    have hrun := calibrate_motor_second_throw E self fuel w _ _ w1 _ what rfl
      (Prod.ext hr1 rfl) h1 (Prod.ext hthrow rfl)
    obtain ⟨l1, ht1, hshape1, -⟩ := wait_returned_trace E self fuel _ _ h1
    refine ⟨m1, m2, l1, by rw [hrun], ?_, ?_, hid1, hdlc1, hb1, hid2, hdlc2, hb2, hshape1⟩
    · rw [hrun]
      show (send_can_command E self AXIS_STATE_ENCODER_OFFSET_CALIBRATION false w1).2.trace = _
      rw [hst2, ht1, hst1]
      simp
    · rw [hrun]
      exact congrArg (fun l => l ++ ["校准失败: " ++ what]) hsc2

/-- C1 amended, on the device `0x10`: against the mock that reports IDLE on every poll and
whose sends return, and against the mock whose first `send` throws. -/
theorem calibrate_motor_sequence_witness :
    (∃ m1 m2 r1 r2 : CANMessage,
      (calibrate_motor (constMock .little true 0) (MotorController.make 0x10) 1
        (World.init ())).2.trace =
          [.sent m1, .received 0x10 true r1, .sent m2, .received 0x10 true r2] ∧
      m1.data 0 = 0x01 ∧ m2.data 0 = 0x03) ∧
    (∃ m1 m2 : CANMessage,
      sent_frames (calibrate_motor (constMock .little true 0) (MotorController.make 0x10) 1
        (World.init ())).2.trace = [m1, m2]) ∧
    (∃ m1 : CANMessage,
      (calibrate_motor (failingSendMock .little 0) (MotorController.make 0x10) 1
        (World.init 0)).2.trace = [.sent m1]) ∧
    (∃ (m1 m2 : CANMessage) (l1 : List Event),
      (calibrate_motor (failingSendMock .little 0) (MotorController.make 0x10) 1
        (World.init 1)).1 = .exited 1 ∧
      (calibrate_motor (failingSendMock .little 0) (MotorController.make 0x10) 1
        (World.init 1)).2.trace = .sent m1 :: l1 ++ [.sent m2]) := by
  have h := calibrate_motor_sequence (constMock .little true 0) (MotorController.make 0x10)
    (World.init ())
  have hf := calibrate_motor_sequence (failingSendMock .little 0) (MotorController.make 0x10)
    (World.init 0)
  have hf1 := calibrate_motor_sequence (failingSendMock .little 0) (MotorController.make 0x10)
    (World.init 1)
  refine ⟨?_, ?_, ?_, ?_⟩
  · obtain ⟨m1, m2, r1, r2, -, ht, -, -, hb1, -, -, hb2, -, -⟩ :=
      h.2.1 constMock_idle (fun _ _ => rfl) 1 le_rfl
    exact ⟨m1, m2, r1, r2, ht, hb1, hb2⟩
  · obtain ⟨m1, m2, l1, l2, -, ht, -, -, -, -, -, -, -, -, hs⟩ :=
      h.1 1 1 _ _ rfl rfl rfl rfl 1 le_rfl le_rfl
    exact ⟨m1, m2, by rw [ht]; exact hs⟩
  · obtain ⟨m1, -, ht, -⟩ := hf.2.2.1 "send failed" 1 rfl
    exact ⟨m1, ht⟩
  · obtain ⟨m1, m2, l1, ho, ht, -⟩ := hf1.2.2.2 "send failed" 1 _ rfl rfl rfl
    exact ⟨m1, m2, l1, ho, ht⟩

theorem bit_eq_zero_imp (c : Bool) (x : ℤ) (h : Int.bit c x = 0) : c = false ∧ x = 0 := by
  rw [Int.bit_val] at h
  cases c
  · simp only [cond_false] at h
    exact ⟨rfl, by omega⟩
  · simp only [cond_true] at h
    omega

theorem lor_eq_add_of_land_eq_zero (n : ℕ) :
    ∀ a : ℤ, Int.land a n = 0 → Int.lor a n = a + n := by
  induction n using Nat.strong_induction_on with
  | _ n ih =>
    intro a h
    rcases Nat.eq_zero_or_pos n with rfl | hpos
    · simpa using lor_zero_right a
    · have hn : ((n : ℕ) : ℤ) = Int.bit (Nat.bodd n) ((n / 2 : ℕ) : ℤ) := by
        rw [Int.bit_coe_nat, ← Nat.div2_val, Nat.bit_decomp]
      have ha : a = Int.bit (Int.bodd a) (Int.div2 a) := (Int.bit_decomp a).symm
      rw [hn, ha, Int.land_bit] at h
      obtain ⟨hc, hx⟩ := bit_eq_zero_imp _ _ h
      have ih1 := ih (n / 2) (by omega) (Int.div2 a) hx
      rw [hn, ha, Int.lor_bit, ih1]
      simp only [Int.bit_val]
      revert hc
      cases Int.bodd a <;> cases Nat.bodd n <;> simp <;> ring

theorem land_natCast_eq (x : ℤ) (M p : ℕ)
    (h : ∀ k, (Int.testBit x k && M.testBit k) = p.testBit k) : Int.land x M = p := by
  cases x with
  | ofNat m =>
    show ((m &&& M : ℕ) : ℤ) = p
    congr 1
    apply Nat.eq_of_testBit_eq
    intro k
    rw [Nat.testBit_land]
    exact h k
  | negSucc m =>
    show ((Nat.ldiff M m : ℕ) : ℤ) = p
    congr 1
    apply Nat.eq_of_testBit_eq
    intro k
    rw [Nat.testBit_ldiff, Bool.and_comm]
    exact h k

theorem offset_disjoint (d : ℤ) (M n : ℕ) (hd : Int.land d M = 0) (hn : n &&& M = n) :
    Int.lor d n = d + n ∧ Int.land (Int.lor d n) M = n := by
  have hbit : ∀ k, (Int.testBit d k && M.testBit k) = false := by
    intro k
    have h := Int.testBit_land d M k
    rw [hd] at h
    have h0 : Int.testBit 0 k = false := Nat.zero_testBit k
    rw [h0] at h
    exact h.symm
  have hsub : ∀ k, n.testBit k = (n.testBit k && M.testBit k) := by
    intro k
    rw [← Nat.testBit_land, hn]
  constructor
  · apply lor_eq_add_of_land_eq_zero
    apply land_natCast_eq
    intro k
    have h1 := hbit k
    have h2 := hsub k
    rw [Nat.zero_testBit]
    revert h1 h2
    cases Int.testBit d k <;> cases n.testBit k <;> cases M.testBit k <;> simp
  · apply land_natCast_eq
    intro k
    rw [Int.testBit_lor]
    have h1 := hbit k
    have h2 := hsub k
    have h3 : Int.testBit (n : ℤ) k = n.testBit k := rfl
    rw [h3]
    revert h1 h2
    cases Int.testBit d k <;> cases n.testBit k <;> cases M.testBit k <;> simp

/-- C10: for every device id `d` with `d & 0x31F = 0`, each of the nine identifiers
`d | p`, for `p` the idle-poll offset `0x00`, the parameter offsets `0x0C` to `0x11` and
the command offsets `0x100` and `0x200`, equals `d + p`, gives `p` back as
`(d | p) & 0x31F`, and the nine identifiers are pairwise distinct. -/
theorem frame_identifiers_distinct (d : Int) (hd : Int.land d 0x31F = 0) :
    offset_table = [0x00, 0x0C, 0x0D, 0x0E, 0x0F, 0x10, 0x11, 0x100, 0x200] ∧
    (∀ p ∈ offset_table, Int.lor d p = d + p ∧ Int.land (Int.lor d p) 0x31F = p) ∧
    (offset_table.map (Int.lor d)).Nodup ∧
    (offset_table.map (Int.lor d)).length = 9 := by
  have hall : ∀ p ∈ offset_table, Int.lor d p = d + p ∧ Int.land (Int.lor d p) 0x31F = p := by
    intro p hp
    have hp2 : p = 0x00 ∨ p = 0x0C ∨ p = 0x0D ∨ p = 0x0E ∨ p = 0x0F ∨ p = 0x10 ∨ p = 0x11 ∨
        p = 0x100 ∨ p = 0x200 := by
      simpa [offset_table, AXIS_STATE_IDLE, INPUT_TORQUE_CAN_ID, TORQUE_CONSTANT_CAN_ID,
        IQ_MEASURED_CAN_ID, TORQUE_ESTIMATE_CAN_ID, VEL_ESTIMATE_CAN_ID, POS_ESTIMATE_CAN_ID,
        command_offset] using hp
    rcases hp2 with rfl | rfl | rfl | rfl | rfl | rfl | rfl | rfl | rfl
    · exact offset_disjoint d 0x31F 0x00 hd (by decide)
    · exact offset_disjoint d 0x31F 0x0C hd (by decide)
    · exact offset_disjoint d 0x31F 0x0D hd (by decide)
    · exact offset_disjoint d 0x31F 0x0E hd (by decide)
    · exact offset_disjoint d 0x31F 0x0F hd (by decide)
    · exact offset_disjoint d 0x31F 0x10 hd (by decide)
    · exact offset_disjoint d 0x31F 0x11 hd (by decide)
    · exact offset_disjoint d 0x31F 0x100 hd (by decide)
    · exact offset_disjoint d 0x31F 0x200 hd (by decide)
  refine ⟨rfl, hall, ?_, rfl⟩
  have hmap : offset_table.map (Int.lor d) = offset_table.map (fun p => d + p) :=
    List.map_congr_left (fun p hp => (hall p hp).1)
  rw [hmap]
  exact List.Nodup.map (add_right_injective d) (by decide)

/-- C10, at the device id `0x20`. -/
theorem frame_identifiers_distinct_witness :
    offset_table.map (Int.lor 0x20) = [0x20, 0x2C, 0x2D, 0x2E, 0x2F, 0x30, 0x31, 0x120, 0x220] ∧
    (offset_table.map (Int.lor 0x20)).Nodup :=
  ⟨by decide, (frame_identifiers_distinct 0x20 (by decide)).2.2.1⟩

end MotorCtl
